import Mathlib

/-!
Verification of the Remix Vite plugin (`packages/remix-dev/vite/plugin.ts`).

This file gives a shallow embedding of the plugin's data model and the
operations referenced by the claims: the Vite manifest chunk walker, the
asset-path resolver, the production browser-manifest synthesis (including the
SHA-256 fingerprint), the route-export transforms, the `.server` import guard,
and the dev-server watcher / hot-update logic.  External collaborators
(the Vite transform pipeline, `es-module-lexer`, node `path` helpers) are
modelled as injected function parameters, following the component contracts of
the design document; everything else is translated directly from the source.
-/

set_option maxRecDepth 10000

/-! ## String helpers (models of the JS / node helpers used by the plugin) -/

/-- `pre` is a prefix of `s` (JS `String.prototype.startsWith`). -/
def strStartsWith (s pre : String) : Bool :=
  List.isPrefixOf pre.data s.data

/-- `suf` is a suffix of `s` (JS `String.prototype.endsWith`). -/
def strEndsWith (s suf : String) : Bool :=
  List.isSuffixOf suf.data s.data

/-- Drop the first `n` characters (JS `String.prototype.slice(n)`). -/
def strDrop (s : String) (n : Nat) : String :=
  String.mk (s.data.drop n)

/-- Model of `vite.normalizePath`: backslashes are rewritten to forward
slashes (the Windows case); on posix paths it is the identity. -/
def normalizePath (s : String) : String :=
  String.mk (s.data.map (fun c => if c == '\\' then '/' else c))

/-- Model of `Array.prototype.join(sep)`. -/
def joinSep (sep : String) : List String → String
  | [] => ""
  | [x] => x
  | x :: y :: rest => x ++ sep ++ joinSep sep (y :: rest)

/-- Model of node `path.relative(base, p)` (composed with `normalizePath`)
for the common case where `p` lives underneath `base`. -/
def relativeTo (base p : String) : String :=
  let nb := normalizePath base
  let np := normalizePath p
  if strStartsWith np (nb ++ "/") then strDrop np (nb ++ "/").data.length
  else if np == nb then ""
  else np

/-- Model of node `path.join(a, b)` for the common forward-slash case. -/
def pathJoin (a b : String) : String :=
  if strEndsWith a "/" then a ++ b else a ++ "/" ++ b

/-- Model of node `path.basename`: the part after the last `/`. -/
def pathBasename (p : String) : String :=
  String.mk ((normalizePath p).data.foldl
    (fun acc c => if c == '/' then [] else acc ++ [c]) [])

/-- Model of JS `String.prototype.replace(pattern, replacement)` with a plain
string pattern: only the first occurrence is replaced. -/
def replaceFirstAux (pat repl : List Char) : List Char → List Char
  | [] => []
  | c :: rest =>
    if pat ≠ [] && List.isPrefixOf pat (c :: rest) then
      repl ++ (c :: rest).drop pat.length
    else c :: replaceFirstAux pat repl rest

def replaceFirst (s pat repl : String) : String :=
  String.mk (replaceFirstAux pat.data repl.data s.data)

/-- Model of JS `String.prototype.slice(0, n)` on ASCII strings. -/
def strTake (s : String) (n : Nat) : String :=
  String.mk (s.data.take n)

/-- `needle` occurs as a contiguous substring of `hay`. -/
def Substr (needle hay : String) : Prop :=
  needle.data <:+: hay.data

instance (needle hay : String) : Decidable (Substr needle hay) :=
  List.decidableInfix needle.data hay.data

/-- Model of `dedupe` from the source: `[...new Set(array)]`, i.e. the
distinct elements in first-occurrence order. -/
def dedupeAux {α : Type} [DecidableEq α] : List α → List α → List α
  | [], _ => []
  | x :: xs, seen => if x ∈ seen then dedupeAux xs seen else x :: dedupeAux xs (x :: seen)

def dedupe {α : Type} [DecidableEq α] (l : List α) : List α :=
  dedupeAux l []

/-! ## Shared constants from the source -/

def SERVER_ONLY_ROUTE_EXPORTS : List String := ["loader", "action", "headers"]

def CLIENT_ROUTE_EXPORTS : List String :=
  ["clientAction", "clientLoader", "default", "ErrorBoundary", "handle",
   "HydrateFallback", "links", "meta", "shouldRevalidate"]

def CLIENT_ROUTE_QUERY_STRING : String := "?client-route"

/-! ## Vite manifest chunks and the dependency walk -/

/-- `Vite.ManifestChunk`: the fields the plugin reads.  Optional fields mirror
the `chunk.imports ?? []` / `if (chunk.imports)` checks in the source. -/
structure ManifestChunk where
  file : String
  imports : Option (List String) := none
  css : Option (List String) := none
  assets : Option (List String) := none
deriving DecidableEq, Repr

/-- A Vite manifest: an insertion-ordered record from chunk keys to chunks.
Distinct keys denote distinct chunk objects, so the JS `Set<ManifestChunk>`
object-identity bookkeeping is modelled by tracking keys. -/
abbrev ViteManifest : Type := List (String × ManifestChunk)

/-- JS property lookup `viteManifest[key]`. -/
def manifestLookup (m : ViteManifest) (key : String) : Option ManifestChunk :=
  (m.find? (fun e => e.1 == key)).map (fun e => e.2)

def manifestKeys (m : ViteManifest) : List String :=
  m.map (fun e => e.1)

inductive WalkError where
  | outOfFuel
  | missingChunk (importKey : String)
deriving DecidableEq, Repr

/-- The recursive `walk` of `resolveDependantChunks`, with an explicit fuel
bound on the recursion depth.  Faithful to the source: the membership test
happens on entry, but a chunk is added to the visited set only *after* its
imports have been walked.  The `foldlM` models the `for` loop over
`chunk.imports`; the JS crash on `viteManifest[importKey]` being `undefined`
is the `missingChunk` error. -/
def walkChunk (m : ViteManifest) :
    Nat → List (String × ManifestChunk) → String × ManifestChunk →
    Except WalkError (List (String × ManifestChunk))
  | 0, _, _ => .error .outOfFuel
  | fuel + 1, visited, entry =>
    if visited.any (fun v => v.1 == entry.1) then .ok visited
    else
      match entry.2.imports with
      | none => .ok (visited ++ [entry])
      | some importKeys =>
        match importKeys.foldlM (fun vis importKey =>
            match manifestLookup m importKey with
            | none => Except.error (WalkError.missingChunk importKey)
            | some chunk => walkChunk m fuel vis (importKey, chunk)) visited with
        | .error e => .error e
        | .ok visited2 => .ok (visited2 ++ [entry])

/-- `resolveDependantChunks(viteManifest, entryChunks)`: walks every entry
chunk in order, sharing the visited set. -/
def resolveDependantChunks (m : ViteManifest)
    (entryChunks : List (String × ManifestChunk)) (fuel : Nat) :
    Except WalkError (List (String × ManifestChunk)) :=
  entryChunks.foldlM (fun visited entry => walkChunk m fuel visited entry) []

/-! ## `getHash`: SHA-256 (node `crypto.createHash("sha256")`), hex digest -/

def u32 (n : Nat) : Nat := n % 4294967296

def rotr32 (n x : Nat) : Nat := u32 ((x >>> n) ||| (x <<< (32 - n)))

def sha256K : List Nat :=
  [1116352408, 1899447441, 3049323471, 3921009573,
   961987163, 1508970993, 2453635748, 2870763221,
   3624381080, 310598401, 607225278, 1426881987,
   1925078388, 2162078206, 2614888103, 3248222580,
   3835390401, 4022224774, 264347078, 604807628,
   770255983, 1249150122, 1555081692, 1996064986,
   2554220882, 2821834349, 2952996808, 3210313671,
   3336571891, 3584528711, 113926993, 338241895,
   666307205, 773529912, 1294757372, 1396182291,
   1695183700, 1986661051, 2177026350, 2456956037,
   2730485921, 2820302411, 3259730800, 3345764771,
   3516065817, 3600352804, 4094571909, 275423344,
   430227734, 506948616, 659060556, 883997877,
   958139571, 1322822218, 1537002063, 1747873779,
   1955562222, 2024104815, 2227730452, 2361852424,
   2428436474, 2756734187, 3204031479, 3329325298]

/-- Big-endian byte rendering of `n` on `k` bytes. -/
def beBytes (k n : Nat) : List Nat :=
  (List.range k).map (fun i => (n >>> (8 * (k - 1 - i))) % 256)

/-- SHA-256 padding: `0x80`, zeros to 56 mod 64, then the 64-bit bit length. -/
def sha256Pad (msg : List Nat) : List Nat :=
  let z := (119 - msg.length % 64) % 64
  msg ++ [128] ++ List.replicate z 0 ++ beBytes 8 (msg.length * 8)

def toBlocks : List Nat → List (List Nat)
  | [] => []
  | c :: rest => (c :: rest).take 64 :: toBlocks ((c :: rest).drop 64)
termination_by l => l.length
decreasing_by simp; omega

/-- The 16 initial 32-bit words of a 64-byte block. -/
def blockWords (block : List Nat) : List Nat :=
  (List.range 16).map (fun i =>
    (block.getD (4 * i) 0) <<< 24 ||| (block.getD (4 * i + 1) 0) <<< 16 |||
    (block.getD (4 * i + 2) 0) <<< 8 ||| block.getD (4 * i + 3) 0)

/-- One step of the message-schedule extension. -/
def wStep (w : List Nat) : List Nat :=
  let i := w.length
  let w15 := w.getD (i - 15) 0
  let w2 := w.getD (i - 2) 0
  let s0 := rotr32 7 w15 ^^^ rotr32 18 w15 ^^^ (w15 >>> 3)
  let s1 := rotr32 17 w2 ^^^ rotr32 19 w2 ^^^ (w2 >>> 10)
  w ++ [u32 (w.getD (i - 16) 0 + s0 + w.getD (i - 7) 0 + s1)]

def sha256Schedule (w16 : List Nat) : List Nat :=
  (List.range 48).foldl (fun w _ => wStep w) w16

structure Sha256State where
  a : Nat
  b : Nat
  c : Nat
  d : Nat
  e : Nat
  f : Nat
  g : Nat
  h : Nat
deriving DecidableEq, Repr

def sha256Init : Sha256State :=
  ⟨1779033703, 3144134277, 1013904242, 2773480762,
   1359893119, 2600822924, 528734635, 1541459225⟩

def sha256Round (st : Sha256State) (kw : Nat × Nat) : Sha256State :=
  let S1 := rotr32 6 st.e ^^^ rotr32 11 st.e ^^^ rotr32 25 st.e
  let ch := (st.e &&& st.f) ^^^ ((4294967295 - u32 st.e) &&& st.g)
  let temp1 := u32 (st.h + S1 + ch + kw.1 + kw.2)
  let S0 := rotr32 2 st.a ^^^ rotr32 13 st.a ^^^ rotr32 22 st.a
  let maj := (st.a &&& st.b) ^^^ (st.a &&& st.c) ^^^ (st.b &&& st.c)
  let temp2 := u32 (S0 + maj)
  { a := u32 (temp1 + temp2), b := st.a, c := st.b, d := st.c,
    e := u32 (st.d + temp1), f := st.e, g := st.f, h := st.g }

def sha256Block (st : Sha256State) (block : List Nat) : Sha256State :=
  let w := sha256Schedule (blockWords block)
  let t := (sha256K.zip w).foldl sha256Round st
  { a := u32 (st.a + t.a), b := u32 (st.b + t.b), c := u32 (st.c + t.c),
    d := u32 (st.d + t.d), e := u32 (st.e + t.e), f := u32 (st.f + t.f),
    g := u32 (st.g + t.g), h := u32 (st.h + t.h) }

def sha256Digest (bytes : List Nat) : Sha256State :=
  (toBlocks (sha256Pad bytes)).foldl sha256Block sha256Init

def hexChars : List Char := "0123456789abcdef".data

def hexDigitChar (n : Nat) : Char := hexChars.getD n '0'

/-- `n` rendered as exactly `k` hex digits (big-endian, zero padded). -/
def hexPad (k n : Nat) : String :=
  String.mk ((List.range k).map (fun i => hexDigitChar ((n >>> (4 * (k - 1 - i))) % 16)))

def sha256Hex (bytes : List Nat) : String :=
  let st := sha256Digest bytes
  hexPad 8 st.a ++ hexPad 8 st.b ++ hexPad 8 st.c ++ hexPad 8 st.d ++
  hexPad 8 st.e ++ hexPad 8 st.f ++ hexPad 8 st.g ++ hexPad 8 st.h

/-- UTF-8 encoding of a unicode scalar value (node hashes strings as utf8). -/
def utf8EncodeCharNat (n : Nat) : List Nat :=
  if n < 128 then [n]
  else if n < 2048 then [192 ||| (n >>> 6), 128 ||| (n &&& 63)]
  else if n < 65536 then
    [224 ||| (n >>> 12), 128 ||| ((n >>> 6) &&& 63), 128 ||| (n &&& 63)]
  else
    [240 ||| (n >>> 18), 128 ||| ((n >>> 12) &&& 63), 128 ||| ((n >>> 6) &&& 63),
     128 ||| (n &&& 63)]

def utf8Bytes (s : String) : List Nat :=
  s.data.flatMap (fun c => utf8EncodeCharNat c.toNat)

/-- `getHash(source, maxLength)` from the source: SHA-256 hex digest of the
string, truncated to `maxLength` characters when given. -/
def getHash (source : String) (maxLength : Option Nat := none) : String :=
  let hash := sha256Hex (utf8Bytes source)
  match maxLength with
  | some m => strTake hash m
  | none => hash

/-! ## `resolveChunk` and `resolveBuildAssetPaths` -/

/-- The error text thrown by `resolveChunk` when the manifest has no entry. -/
def manifestEntryNotFoundMessage (rootRelativeFilePath : String) (m : ViteManifest) : String :=
  let knownManifestKeys := joinSep ", " ((manifestKeys m).map (fun key => "\"" ++ key ++ "\""))
  "No manifest entry found for \"" ++ rootRelativeFilePath ++
    "\". Known manifest keys: " ++ knownManifestKeys

/-- `resolveChunk(ctx, viteManifest, absoluteFilePath)`.  `relativize` models
`vite.normalizePath(path.relative(ctx.rootDirectory, ·))` (node externals).
The result keeps the manifest key under which the chunk was found, modelling
JS object identity of the chunk. -/
def resolveChunkEntry (relativize : String → String) (m : ViteManifest)
    (absoluteFilePath : String) : Except String (String × ManifestChunk) :=
  let rootRelativeFilePath := relativize absoluteFilePath
  match manifestLookup m (rootRelativeFilePath ++ CLIENT_ROUTE_QUERY_STRING) with
  | some c => .ok (rootRelativeFilePath ++ CLIENT_ROUTE_QUERY_STRING, c)
  | none =>
    match manifestLookup m rootRelativeFilePath with
    | some c => .ok (rootRelativeFilePath, c)
    | none => .error (manifestEntryNotFoundMessage rootRelativeFilePath m)

def resolveChunk (relativize : String → String) (m : ViteManifest)
    (absoluteFilePath : String) : Except String ManifestChunk :=
  (resolveChunkEntry relativize m absoluteFilePath).map (fun e => e.2)

inductive AssetError where
  | chunkNotFound (message : String)
  | walk (e : WalkError)
  | missingImportChunk (importKey : String)
deriving DecidableEq, Repr

structure AssetPaths where
  module : String
  imports : List String
  css : List String
deriving DecidableEq, Repr

def liftChunkErr {α : Type} : Except String α → Except AssetError α
  | .error s => .error (.chunkNotFound s)
  | .ok a => .ok a

/-- The per-import lookup `viteManifest[imported].file` with the publicPath
prefix; the `missingImportChunk` error models the JS crash when the key is
absent. -/
def importUrl (publicPath : String) (m : ViteManifest) (imported : String) :
    Except AssetError String :=
  match manifestLookup m imported with
  | some c => Except.ok (publicPath ++ c.file)
  | none => Except.error (AssetError.missingImportChunk imported)

/-- `resolveBuildAssetPaths(ctx, viteManifest, entryFilePath, prepended)`:
resolves the entry chunk (and prepended chunks), walks the dependency
closure, and returns publicPath-prefixed script and stylesheet URL lists.
The `missingImportChunk` error models the JS crash on
`viteManifest[imported].file` when the key is absent. -/
def resolveBuildAssetPaths (relativize : String → String) (publicPath : String)
    (m : ViteManifest) (entryFilePath : String)
    (prependedAssetFilePaths : List String) (fuel : Nat) :
    Except AssetError AssetPaths :=
  match liftChunkErr (resolveChunkEntry relativize m entryFilePath) with
  | .error e => .error e
  | .ok entryChunk =>
    match prependedAssetFilePaths.mapM
        (fun filePath => liftChunkErr (resolveChunkEntry relativize m filePath)) with
    | .error e => .error e
    | .ok prependedAssetChunks =>
      match resolveDependantChunks m (prependedAssetChunks ++ [entryChunk]) fuel with
      | .error e => .error (.walk e)
      | .ok chunks =>
        match (dedupe (chunks.flatMap (fun c => c.2.imports.getD []))).mapM
            (importUrl publicPath m) with
        | .error e => .error e
        | .ok importFiles =>
          .ok { module := publicPath ++ entryChunk.2.file ++ CLIENT_ROUTE_QUERY_STRING,
                imports := importFiles,
                css := (dedupe (chunks.flatMap (fun c => c.2.css.getD []))).map
                  (fun href => publicPath ++ href) }

/-! ## Routes and the production browser manifest -/

/-- `ConfigRoute` from the route manifest (external provider, read-only). -/
structure ConfigRoute where
  id : String
  parentId : Option String := none
  path : Option String := none
  index : Option Bool := none
  caseSensitive : Option Bool := none
  file : String
deriving DecidableEq, Repr

/-- A per-route entry of the browser manifest. -/
structure RouteManifestEntry where
  id : String
  parentId : Option String
  path : Option String
  index : Option Bool
  caseSensitive : Option Bool
  hasAction : Bool
  hasLoader : Bool
  hasClientAction : Bool
  hasClientLoader : Bool
  hasErrorBoundary : Bool
  module : String
  imports : List String
  css : List String
deriving DecidableEq, Repr

/-! `JSON.stringify` for the fingerprinted `{ entry, routes }` pair.
Object keys are emitted in insertion order; `undefined`-valued properties
are omitted, as in JS. -/

def jsonEscapeChar (c : Char) : String :=
  if c == '"' then "\\\""
  else if c == '\\' then "\\\\"
  else if c == '\n' then "\\n"
  else if c == '\r' then "\\r"
  else if c == '\t' then "\\t"
  else String.singleton c

def jsonStr (s : String) : String :=
  "\"" ++ String.join (s.data.map jsonEscapeChar) ++ "\""

def jsonBool (b : Bool) : String := if b then "true" else "false"

def jsonStrArr (l : List String) : String :=
  "[" ++ joinSep "," (l.map jsonStr) ++ "]"

def jsonObj (fields : List (String × String)) : String :=
  "\x7b" ++ joinSep "," (fields.map (fun f => jsonStr f.1 ++ ":" ++ f.2)) ++ "\x7d"

def optField (name : String) (v : Option String) : List (String × String) :=
  match v with
  | none => []
  | some s => [(name, s)]

def stringifyAssetPaths (a : AssetPaths) : String :=
  jsonObj [("module", jsonStr a.module), ("imports", jsonStrArr a.imports),
           ("css", jsonStrArr a.css)]

def stringifyRouteEntry (r : RouteManifestEntry) : String :=
  jsonObj ([("id", jsonStr r.id)] ++
    optField "parentId" (r.parentId.map jsonStr) ++
    optField "path" (r.path.map jsonStr) ++
    optField "index" (r.index.map jsonBool) ++
    optField "caseSensitive" (r.caseSensitive.map jsonBool) ++
    [("hasAction", jsonBool r.hasAction), ("hasLoader", jsonBool r.hasLoader),
     ("hasClientAction", jsonBool r.hasClientAction),
     ("hasClientLoader", jsonBool r.hasClientLoader),
     ("hasErrorBoundary", jsonBool r.hasErrorBoundary),
     ("module", jsonStr r.module), ("imports", jsonStrArr r.imports),
     ("css", jsonStrArr r.css)])

/-- `JSON.stringify(fingerprintedValues)` for `{ entry, routes }`. -/
def stringifyFingerprintedValues (entry : AssetPaths)
    (routes : List (String × RouteManifestEntry)) : String :=
  jsonObj [("entry", stringifyAssetPaths entry),
           ("routes", jsonObj (routes.map (fun kv => (kv.1, stringifyRouteEntry kv.2))))]

/-- The `version` computed by `createBrowserManifestForBuild`:
`getHash(JSON.stringify(fingerprintedValues), 8)`. -/
def manifestVersion (entry : AssetPaths)
    (routes : List (String × RouteManifestEntry)) : String :=
  getHash (stringifyFingerprintedValues entry routes) (some 8)

/-- The inputs of `createBrowserManifestForBuild` drawn from the plugin
context; `relativize` models `vite.normalizePath(path.relative(rootDirectory, ·))`. -/
structure BuildCtx where
  publicPath : String
  appDirectory : String
  entryClientFilePath : String
  routes : List (String × ConfigRoute)
  relativize : String → String

structure BrowserManifestForBuild where
  entry : AssetPaths
  routes : List (String × RouteManifestEntry)
  version : String
  url : String

/-- The per-route loop of `createBrowserManifestForBuild`.  `exportsOf`
injects `routeManifestExports` (the classifier run through the Vite child
compiler, an external collaborator). -/
def buildRouteEntries (ctx : BuildCtx) (m : ViteManifest)
    (exportsOf : String → List String) (fuel : Nat) :
    Except AssetError (List (String × RouteManifestEntry)) :=
  ctx.routes.mapM (fun kv =>
    let route := kv.2
    let routeFilePath := pathJoin ctx.appDirectory route.file
    let sourceExports := exportsOf kv.1
    let isRootRoute := route.parentId == none
    (resolveBuildAssetPaths ctx.relativize ctx.publicPath m routeFilePath
        (if isRootRoute then [ctx.entryClientFilePath] else []) fuel).map
      (fun assetPaths =>
        (kv.1,
          { id := route.id, parentId := route.parentId, path := route.path,
            index := route.index, caseSensitive := route.caseSensitive,
            hasAction := sourceExports.contains "action",
            hasLoader := sourceExports.contains "loader",
            hasClientAction := sourceExports.contains "clientAction",
            hasClientLoader := sourceExports.contains "clientLoader",
            hasErrorBoundary := sourceExports.contains "ErrorBoundary",
            module := assetPaths.module, imports := assetPaths.imports,
            css := assetPaths.css })))

/-- `createBrowserManifestForBuild`: entry assets, per-route entries, then the
fingerprint and manifest URL.  The `writeFileSafe` disk write is a side effect
outside this model. -/
def createBrowserManifestForBuild (ctx : BuildCtx) (m : ViteManifest)
    (exportsOf : String → List String) (fuel : Nat) :
    Except AssetError BrowserManifestForBuild :=
  match resolveBuildAssetPaths ctx.relativize ctx.publicPath m
      ctx.entryClientFilePath [] fuel with
  | .error e => .error e
  | .ok entry =>
    match buildRouteEntries ctx m exportsOf fuel with
    | .error e => .error e
    | .ok routes =>
      let version := manifestVersion entry routes
      let manifestPath := "assets/manifest-" ++ version ++ ".js"
      .ok { entry := entry, routes := routes, version := version,
            url := ctx.publicPath ++ manifestPath }

/-! ## `getRoute` and the route-exports transforms -/

/-- `getRoute(pluginConfig, file)`: maps an absolute file path to the route
whose `file` equals its app-relative path, if any. -/
def getRoute (appDirectory : String) (routes : List (String × ConfigRoute))
    (file : String) : Option ConfigRoute :=
  if strStartsWith file (normalizePath appDirectory) then
    let routePath := relativeTo appDirectory file
    (routes.map (fun kv => kv.2)).find? (fun r => r.file == routePath)
  else none

/-- The SPA-mode invalid-export error text from `remix-route-exports`. -/
def spaModeInvalidExportsMessage (serverOnlyExports : List String)
    (routeFile : String) : String :=
  let str := joinSep ", " (serverOnlyExports.map (fun e => "`" ++ e ++ "`"))
  "SPA Mode: " ++ toString serverOnlyExports.length ++
    " invalid route export(s) in `" ++ routeFile ++ "`: " ++ str ++
    ". See https://remix.run/future/spa-mode for more information."

/-- The SPA-mode `HydrateFallback` error text from `remix-route-exports`. -/
def spaModeHydrateFallbackMessage (routeFile : String) : String :=
  "SPA Mode: Invalid `HydrateFallback` export found in `" ++ routeFile ++
    "`. `HydrateFallback` is only permitted on the root route in SPA Mode. " ++
    "See https://remix.run/future/spa-mode for more information."

/-- The `remix-route-exports` plugin's `transform(code, id, options)` hook.
`lex` injects `esModuleLexer(code)[1].map(exp => exp.n)` (external library);
`removeExportsImpl` injects `removeExports` from `remove-exports.ts` (a
repository module that is not under `src/`).  `.ok none` models the hook
returning `undefined` (no transform applied); `.error` models a throw. -/
def routeExportsTransform (lex : String → List String)
    (removeExportsImpl : String → List String → String)
    (appDirectory : String) (routes : List (String × ConfigRoute))
    (unstable_ssr : Bool) (ssrOpt : Bool) (code fileId : String) :
    Except String (Option String) :=
  if ssrOpt then .ok none
  else
    match getRoute appDirectory routes fileId with
    | none => .ok none
    | some route =>
      if !unstable_ssr then
        let serverOnlyExports :=
          (lex code).filter (fun exp => SERVER_ONLY_ROUTE_EXPORTS.contains exp)
        if serverOnlyExports.length > 0 then
          .error (spaModeInvalidExportsMessage serverOnlyExports route.file)
        else if route.id != "root" &&
            (lex code).any (fun exp => exp == "HydrateFallback") then
          .error (spaModeHydrateFallbackMessage route.file)
        else .ok (some (removeExportsImpl code SERVER_ONLY_ROUTE_EXPORTS))
      else .ok (some (removeExportsImpl code SERVER_ONLY_ROUTE_EXPORTS))

/-- The export names re-exported by the `?client-route` module variant. -/
def clientRouteExportNames (sourceExports : List String) : List String :=
  sourceExports.filter (fun exportName => CLIENT_ROUTE_EXPORTS.contains exportName)

/-- The `?client-route` branch of the main `remix` plugin's `transform` hook.
`classify` injects `getRouteModuleExports` (the child-compiler classifier,
an external collaborator).  `none` models the hook returning `undefined`. -/
def clientRouteTransform (classify : String → List String) (fileId : String) :
    Option String :=
  if strEndsWith fileId CLIENT_ROUTE_QUERY_STRING then
    let routeModuleId := replaceFirst fileId CLIENT_ROUTE_QUERY_STRING ""
    let sourceExports := classify routeModuleId
    let routeFileName := pathBasename routeModuleId
    let clientExports := joinSep ", " (clientRouteExportNames sourceExports)
    some ("export \x7b " ++ clientExports ++ " \x7d from \"./" ++ routeFileName ++ "\";")
  else none

/-! ## The `remix-dot-server` resolution guard -/

/-- The suffixes matched by `/\.server(\.[cm]?[jt]sx?)?$/`. -/
def dotServerFileSuffixes : List String :=
  [".server",
   ".server.js", ".server.jsx", ".server.ts", ".server.tsx",
   ".server.cjs", ".server.cjsx", ".server.cts", ".server.ctsx",
   ".server.mjs", ".server.mjsx", ".server.mts", ".server.mtsx"]

def isDotServerFile (s : String) : Bool :=
  dotServerFileSuffixes.any (fun suf => strEndsWith s suf)

/-- The `/\/\.server\//` directory-segment test. -/
def isDotServerDir (s : String) : Bool :=
  decide (Substr "/.server/" s)

def isDotServerPath (s : String) : Bool :=
  isDotServerFile s || isDotServerDir s

/-- The route-importer error text of `remix-dot-server` (`colors.red` is an
ANSI-styling no-op in this model). -/
def dotServerRouteErrorMessage (offendingId importerShort : String) : String :=
  let serverOnlyExports :=
    joinSep ", " (SERVER_ONLY_ROUTE_EXPORTS.map (fun xport => "`" ++ xport ++ "`"))
  joinSep "\n"
    ["Server-only module referenced by client",
     "",
     "    \x27" ++ offendingId ++ "\x27 imported by route \x27" ++ importerShort ++ "\x27",
     "",
     "  Remix automatically removes server-code from these exports:",
     "    " ++ serverOnlyExports,
     "",
     "  But other route exports in \x27" ++ importerShort ++ "\x27 depend on \x27" ++
       offendingId ++ "\x27.",
     "",
     "  See https://remix.run/docs/en/main/future/vite#splitting-up-client-and-server-code",
     ""]

/-- The generic-importer error text of `remix-dot-server`. -/
def dotServerGenericErrorMessage (offendingId importerShort : String) : String :=
  joinSep "\n"
    ["Server-only module referenced by client",
     "",
     "    \x27" ++ offendingId ++ "\x27 imported by \x27" ++ importerShort ++ "\x27",
     "",
     "  See https://remix.run/docs/en/main/future/vite#splitting-up-client-and-server-code",
     ""]

/-- The `remix-dot-server` plugin's `resolveId(id, importer, options)` hook.
`resolveUpstream` injects `this.resolve(id, importer, options)` (the bundler's
resolver); `alreadyResolving` is the `options.custom["remix-dot-server"]`
re-entrancy marker.  `.ok none` models returning `undefined`. -/
def dotServerResolveId (resolveUpstream : String → Option String)
    (viteCommand : String) (rootDirectory appDirectory : String)
    (routes : List (String × ConfigRoute))
    (ssrOpt : Bool) (alreadyResolving : Bool)
    (moduleId : String) (importer : Option String) : Except String (Option Unit) :=
  if ssrOpt then .ok none
  else if alreadyResolving then .ok none
  else
    match resolveUpstream moduleId with
    | none => .ok none
    | some resolvedId =>
      if !isDotServerPath resolvedId then .ok none
      else
        match importer with
        | none => .ok none
        | some imp =>
          if viteCommand != "build" && strEndsWith imp ".html" then .ok none
          else
            let importerShort := relativeTo rootDirectory imp
            match getRoute appDirectory routes imp with
            | some _ => .error (dotServerRouteErrorMessage moduleId importerShort)
            | none => .error (dotServerGenericErrorMessage moduleId importerShort)

/-! ## Resolved plugin config, JSON equality, virtual modules -/

/-- `ResolvedVitePluginConfig`.  `adapter` carries the JSON rendering of the
adapter's serializable content (its exact shape is external config data);
`serverBundles` is a function value, which `JSON.stringify` drops. -/
structure ResolvedConfig where
  adapter : Option String := none
  appDirectory : String
  buildDirectory : String
  future : List (String × Bool) := []
  manifest : Bool := false
  publicPath : String := "/"
  routes : List (String × ConfigRoute) := []
  serverBuildFile : String := "index.js"
  serverBundles : Option (List ConfigRoute → String) := none
  serverModuleFormat : String := "esm"
  unstable_ssr : Bool := true

/-- `JSON.stringify` of a `ConfigRoute` (field order as produced by the
external route-config provider; `undefined` fields are omitted). -/
def stringifyConfigRoute (r : ConfigRoute) : String :=
  jsonObj ([("id", jsonStr r.id)] ++
    optField "parentId" (r.parentId.map jsonStr) ++
    optField "path" (r.path.map jsonStr) ++
    optField "index" (r.index.map jsonBool) ++
    optField "caseSensitive" (r.caseSensitive.map jsonBool) ++
    [("file", jsonStr r.file)])

/-- `JSON.stringify(remixConfig)`: keys in the order of the object literal in
`updateRemixPluginContext`; `undefined`-valued keys and function-valued keys
(`serverBundles`) are omitted, so function fields never affect the result. -/
def configStringify (c : ResolvedConfig) : String :=
  jsonObj
    (optField "adapter" c.adapter ++
     [("appDirectory", jsonStr c.appDirectory),
      ("buildDirectory", jsonStr c.buildDirectory),
      ("future", jsonObj (c.future.map (fun kv => (kv.1, jsonBool kv.2)))),
      ("manifest", jsonBool c.manifest),
      ("publicPath", jsonStr c.publicPath),
      ("routes", jsonObj (c.routes.map (fun kv => (kv.1, stringifyConfigRoute kv.2)))),
      ("serverBuildFile", jsonStr c.serverBuildFile),
      ("serverModuleFormat", jsonStr c.serverModuleFormat),
      ("unstable_ssr", jsonBool c.unstable_ssr)])

/-- `isEqualJson(v1, v2)` applied to resolved configs. -/
def isEqualJson (c1 c2 : ResolvedConfig) : Bool :=
  configStringify c1 == configStringify c2

/-- Modelled from the spec: the Virtual Module Registry (`vmod.ts` is not
under `src/`).  `VirtualModule.id(name)` yields the stable symbolic module id
and `VirtualModule.resolve` maps it to the reserved resolved id; resolution
is a pure, injective function of the id string. -/
def VirtualModule.id (name : String) : String := "virtual:remix/" ++ name

def VirtualModule.resolve (vmodId : String) : String := "\x00" ++ vmodId

def serverBuildId : String := VirtualModule.id "server-build"

def serverManifestId : String := VirtualModule.id "server-manifest"

def browserManifestId : String := VirtualModule.id "browser-manifest"

def vmods : List String := [serverBuildId, serverManifestId, browserManifestId]

/-- The dev server's module graph: resolved module id ↦ invalidated flag;
only loaded modules appear (`moduleGraph.getModuleById`). -/
abbrev ModuleGraph : Type := List (String × Bool)

/-- `invalidateVirtualModules(viteDevServer)`: for each declared virtual
module present in the graph, mark it invalidated. -/
def invalidateVirtualModules (g : ModuleGraph) : ModuleGraph :=
  g.map (fun entry =>
    if vmods.any (fun vmod => VirtualModule.resolve vmod == entry.1) then
      (entry.1, true)
    else entry)

/-! ## The dev watcher handler and `handleHotUpdate` -/

structure WatcherState where
  remixConfig : ResolvedConfig
  graph : ModuleGraph

structure WatcherOutcome where
  remixConfig : ResolvedConfig
  graph : ModuleGraph
  invalidated : Bool

/-- The trigger condition of the `watcher.on("all", ...)` handler. -/
def watcherTriggered (appDirectory configFile : String)
    (eventName filepath : String) : Bool :=
  let appFileAddedOrRemoved :=
    (eventName == "add" || eventName == "unlink") &&
    strStartsWith (normalizePath filepath) (normalizePath appDirectory)
  let viteConfigChanged :=
    eventName == "change" && (normalizePath filepath == normalizePath configFile)
  appFileAddedOrRemoved || viteConfigChanged

/-- The `viteDevServer.watcher.on("all", ...)` handler from `configureServer`.
`recompute` injects `updateRemixPluginContext` (config re-resolution through
the external resolver); `invalidated` records whether
`invalidateVirtualModules` ran. -/
def watcherHandler (recompute : Unit → ResolvedConfig) (configFile : String)
    (st : WatcherState) (eventName filepath : String) : WatcherOutcome :=
  if watcherTriggered st.remixConfig.appDirectory configFile eventName filepath then
    let lastRemixConfig := st.remixConfig
    let newConfig := recompute ()
    if !isEqualJson lastRemixConfig newConfig then
      { remixConfig := newConfig, graph := invalidateVirtualModules st.graph,
        invalidated := true }
    else
      { remixConfig := newConfig, graph := st.graph, invalidated := false }
  else
    { remixConfig := st.remixConfig, graph := st.graph, invalidated := false }

/-- A route's hot-update metadata, as produced by `getRouteMetadata` (and as
stored in the dev manifest's `routes` record: only the five capability flags
of the stored entry are read by `handleHotUpdate`). -/
structure DevRouteMetadata where
  id : String
  parentId : Option String
  path : Option String
  index : Option Bool
  caseSensitive : Option Bool
  url : String
  module : String
  hasAction : Bool
  hasClientAction : Bool
  hasLoader : Bool
  hasClientLoader : Bool
  hasErrorBoundary : Bool
  imports : List String
deriving DecidableEq, Repr

/-- `getRouteMetadata(ctx, viteChildCompiler, route, read)`.  `resolveFileUrl`
injects `resolve-file-url.ts` (a repository module not under `src/`);
`exportsOf` injects `getRouteModuleExports` (child-compiler classifier);
`pathJoin appDirectory route.file` models
`resolveRelativeRouteFilePath(route, remixConfig)`. -/
def getRouteMetadata (rootDirectory appDirectory : String)
    (resolveFileUrl : String → String) (exportsOf : String → List String)
    (route : ConfigRoute) : DevRouteMetadata :=
  let sourceExports := exportsOf route.file
  let routeFilePath := pathJoin appDirectory route.file
  { id := route.id, parentId := route.parentId, path := route.path,
    index := route.index, caseSensitive := route.caseSensitive,
    url := "/" ++ relativeTo rootDirectory routeFilePath,
    module := resolveFileUrl routeFilePath ++ "?import",
    hasAction := sourceExports.contains "action",
    hasClientAction := sourceExports.contains "clientAction",
    hasLoader := sourceExports.contains "loader",
    hasClientLoader := sourceExports.contains "clientLoader",
    hasErrorBoundary := sourceExports.contains "ErrorBoundary",
    imports := [] }

/-- The `{type:"custom", event:"remix:hmr", data:{route}}` payload sent over
the dev websocket; `route := none` models `data.route = null`. -/
structure HmrEvent where
  event : String
  route : Option DevRouteMetadata
deriving DecidableEq, Repr

structure HotUpdateOutcome where
  sentEvents : List HmrEvent
  graph : ModuleGraph
  invalidated : Bool

/-- The `remix-hmr-updates` plugin's `handleHotUpdate({server, file, ...})`.
`manifestRoutes` injects the routes record of the loaded server manifest
(`server.ssrLoadModule(serverManifestId)`). -/
def handleHotUpdate (rootDirectory appDirectory : String)
    (routes : List (String × ConfigRoute))
    (resolveFileUrl : String → String) (exportsOf : String → List String)
    (manifestRoutes : String → Option DevRouteMetadata)
    (g : ModuleGraph) (file : String) : HotUpdateOutcome :=
  match getRoute appDirectory routes file with
  | none =>
    { sentEvents := [{ event := "remix:hmr", route := none }],
      graph := g, invalidated := false }
  | some route =>
    let newRouteMetadata :=
      getRouteMetadata rootDirectory appDirectory resolveFileUrl exportsOf route
    let oldRouteMetadata := manifestRoutes route.id
    let inval :=
      match oldRouteMetadata with
      | none => true
      | some old =>
        old.hasLoader != newRouteMetadata.hasLoader ||
        old.hasClientLoader != newRouteMetadata.hasClientLoader ||
        old.hasAction != newRouteMetadata.hasAction ||
        old.hasClientAction != newRouteMetadata.hasClientAction ||
        old.hasErrorBoundary != newRouteMetadata.hasErrorBoundary
    { sentEvents := [{ event := "remix:hmr", route := some newRouteMetadata }],
      graph := if inval then invalidateVirtualModules g else g,
      invalidated := inval }

/-! ## Test fixtures used by counterexamples and witnesses -/

/-- A cyclic import graph: chunk `A` imports `B` and `B` imports `A`. -/
def chunkA : ManifestChunk := { file := "assets/a.js", imports := some ["B"] }

def chunkB : ManifestChunk := { file := "assets/b.js", imports := some ["A"] }

def cyclicManifest : ViteManifest := [("A", chunkA), ("B", chunkB)]

/-- Two distinct chunk keys whose chunks share the same output file. -/
def dupFileManifest : ViteManifest :=
  [("e", { file := "e.js", imports := some ["a", "b"] }),
   ("a", { file := "shared.js" }),
   ("b", { file := "shared.js" })]

/-- An acyclic manifest whose chunk files are pairwise distinct. -/
def plainManifest : ViteManifest :=
  [("e", { file := "e.js", imports := some ["a"] }),
   ("a", { file := "a.js", css := some ["a.css"] })]

def rootRoute : ConfigRoute := { id := "root", file := "root.tsx" }

def aboutRoute : ConfigRoute :=
  { id := "routes/about", parentId := some "root", path := some "about",
    file := "routes/about.tsx" }

def fixtureRoutes : List (String × ConfigRoute) :=
  [("root", rootRoute), ("routes/about", aboutRoute)]

/-- The entry asset record used by the fingerprint counterexample. -/
def c3Entry : AssetPaths :=
  { module := "/assets/entry-client.js", imports := [], css := [] }

/-- A family of route records identical except for the resolved asset path of
the single route: the module URL embeds `n` as a repeated character run. -/
def c3Route (n : Nat) : RouteManifestEntry :=
  { id := "routes/_index", parentId := some "root", path := none,
    index := some true, caseSensitive := none,
    hasAction := false, hasLoader := false, hasClientAction := false,
    hasClientLoader := false, hasErrorBoundary := false,
    module := "/assets/" ++ String.mk (List.replicate n 'a') ++ ".js",
    imports := [], css := [] }

def c3Routes (n : Nat) : List (String × RouteManifestEntry) :=
  [("routes/_index", c3Route n)]

/-- The leading 32-bit word of the fingerprint digest for `c3Routes n`. -/
def c3VersionWord (n : Nat) : Nat :=
  (sha256Digest (utf8Bytes (stringifyFingerprintedValues c3Entry (c3Routes n)))).a

/-- All eight digest words are 32-bit values. -/
def stateBounded (st : Sha256State) : Prop :=
  st.a < 4294967296 ∧ st.b < 4294967296 ∧ st.c < 4294967296 ∧
  st.d < 4294967296 ∧ st.e < 4294967296 ∧ st.f < 4294967296 ∧
  st.g < 4294967296 ∧ st.h < 4294967296

/-- A fixed build context for witnesses. -/
def witnessCtx : BuildCtx :=
  { publicPath := "/", appDirectory := "/proj/app",
    entryClientFilePath := "/proj/app/entry.client.tsx",
    routes := [], relativize := fun s => s }

/-- A resolved config fixture. -/
def cfgA : ResolvedConfig :=
  { appDirectory := "/proj/app", buildDirectory := "/proj/build" }

/-- Like `cfgA` but with a different public path (a JSON-visible change). -/
def cfgB : ResolvedConfig :=
  { appDirectory := "/proj/app", buildDirectory := "/proj/build",
    publicPath := "/cdn/" }

/-- Like `cfgA` but with a different `serverBundles` function (a change that
`JSON.stringify` cannot see). -/
def cfgC : ResolvedConfig :=
  { appDirectory := "/proj/app", buildDirectory := "/proj/build",
    serverBundles := some (fun _ => "bundle") }

def fixtureGraph : ModuleGraph :=
  [(VirtualModule.resolve serverBuildId, false),
   (VirtualModule.resolve serverManifestId, false),
   ("/proj/app/root.tsx", false)]

/-! # Theorems

General-purpose lemmas first, then one theorem per claim (with its witness or
counterexample). -/

theorem strData_append (a b : String) : (a ++ b).data = a.data ++ b.data :=
  String.data_append a b

theorem strMk_data (s : String) : String.mk s.data = s := rfl

theorem substr_refl (s : String) : Substr s s := List.infix_refl s.data

theorem substr_trans {a b c : String} (h1 : Substr a b) (h2 : Substr b c) :
    Substr a c :=
  List.IsInfix.trans h1 h2

theorem substr_append_left {n h : String} (t : String) (hs : Substr n h) :
    Substr n (h ++ t) := by
  obtain ⟨u, v, huv⟩ := hs
  exact ⟨u, v ++ t.data, by rw [strData_append, ← huv]; simp⟩

theorem substr_append_right {n t : String} (h : String) (hs : Substr n t) :
    Substr n (h ++ t) := by
  obtain ⟨u, v, huv⟩ := hs
  exact ⟨h.data ++ u, v, by rw [strData_append, ← huv]; simp⟩

theorem substr_joinSep (sep : String) (l : List String) (x : String)
    (hx : x ∈ l) : Substr x (joinSep sep l) := by
  induction l with
  | nil => cases hx
  | cons a rest ih =>
    cases rest with
    | nil =>
      have : x = a := by simpa using hx
      subst this
      exact substr_refl x
    | cons b rest2 =>
      rcases List.mem_cons.mp hx with rfl | hmem
      · exact substr_append_left _ (substr_append_left _ (substr_refl x))
      · exact substr_append_right _ (ih hmem)

theorem mem_dedupeAux {α : Type} [DecidableEq α] (l : List α) :
    ∀ (seen : List α) (x : α), x ∈ dedupeAux l seen ↔ x ∈ l ∧ x ∉ seen := by
  induction l with
  | nil => intro seen x; simp [dedupeAux]
  | cons a xs ih =>
    intro seen x
    by_cases ha : a ∈ seen
    · rw [dedupeAux, if_pos ha, ih]
      constructor
      · rintro ⟨hx, hs⟩; exact ⟨List.mem_cons_of_mem a hx, hs⟩
      · rintro ⟨hor, hs⟩
        rcases List.mem_cons.mp hor with rfl | hx
        · exact absurd ha hs
        · exact ⟨hx, hs⟩
    · rw [dedupeAux, if_neg ha]
      simp only [List.mem_cons, ih]
      constructor
      · rintro (rfl | ⟨hx, hns⟩)
        · exact ⟨Or.inl rfl, ha⟩
        · exact ⟨Or.inr hx, fun hs => hns (Or.inr hs)⟩
      · rintro ⟨rfl | hx, hns⟩
        · exact Or.inl rfl
        · by_cases hxa : x = a
          · exact Or.inl hxa
          · exact Or.inr ⟨hx, fun hmem => hmem.elim hxa hns⟩

theorem dedupeAux_nodup {α : Type} [DecidableEq α] (l : List α) :
    ∀ seen : List α, (dedupeAux l seen).Nodup := by
  induction l with
  | nil => intro seen; simp [dedupeAux]
  | cons a xs ih =>
    intro seen
    by_cases ha : a ∈ seen
    · rw [dedupeAux, if_pos ha]; exact ih seen
    · rw [dedupeAux, if_neg ha]
      refine List.nodup_cons.mpr ⟨?_, ih (a :: seen)⟩
      rw [mem_dedupeAux]
      rintro ⟨-, hnot⟩
      exact hnot (List.mem_cons_self a seen)

theorem dedupe_nodup {α : Type} [DecidableEq α] (l : List α) :
    (dedupe l).Nodup := dedupeAux_nodup l []

theorem mem_dedupe {α : Type} [DecidableEq α] (l : List α) (x : α) :
    x ∈ dedupe l ↔ x ∈ l := by
  rw [dedupe, mem_dedupeAux]; simp

theorem dedupeAux_sublist {α : Type} [DecidableEq α] (l : List α) :
    ∀ seen : List α, List.Sublist (dedupeAux l seen) l := by
  induction l with
  | nil => intro seen; simp [dedupeAux]
  | cons a xs ih =>
    intro seen
    by_cases ha : a ∈ seen
    · rw [dedupeAux, if_pos ha]; exact (ih seen).cons a
    · rw [dedupeAux, if_neg ha]; exact (ih (a :: seen)).cons₂ a

theorem dedupe_sublist {α : Type} [DecidableEq α] (l : List α) :
    List.Sublist (dedupe l) l :=
  dedupeAux_sublist l []

theorem dedupeAux_of_nodup {α : Type} [DecidableEq α] (l : List α) :
    ∀ seen : List α, l.Nodup → (∀ x ∈ l, x ∉ seen) → dedupeAux l seen = l := by
  induction l with
  | nil => intro seen _ _; rfl
  | cons a xs ih =>
    intro seen hnd hdisj
    have ha : a ∉ seen := hdisj a (List.mem_cons_self a xs)
    rw [dedupeAux, if_neg ha]
    congr 1
    refine ih (a :: seen) (List.nodup_cons.mp hnd).2 ?_
    intro x hx
    rw [List.mem_cons]
    rintro (rfl | hmem)
    · exact (List.nodup_cons.mp hnd).1 hx
    · exact hdisj x (List.mem_cons_of_mem a hx) hmem

theorem dedupe_idempotent {α : Type} [DecidableEq α] (l : List α) :
    dedupe (dedupe l) = dedupe l :=
  dedupeAux_of_nodup (dedupe l) [] (dedupe_nodup l) (by simp)

/-! ### C1: the dependency walk on a cyclic import graph -/

theorem cyclic_walk_out_of_fuel : ∀ fuel : Nat,
    walkChunk cyclicManifest fuel [] ("A", chunkA) = .error .outOfFuel ∧
    walkChunk cyclicManifest fuel [] ("B", chunkB) = .error .outOfFuel := by
  intro fuel
  induction fuel with
  | zero => exact ⟨rfl, rfl⟩
  | succ n ih =>
    have hA : manifestLookup cyclicManifest "A" = some chunkA := rfl
    have hB : manifestLookup cyclicManifest "B" = some chunkB := rfl
    constructor
    · rw [walkChunk]
      simp [chunkA, hB, List.foldlM, ih.2]
    · rw [walkChunk]
      simp [chunkB, hA, List.foldlM, ih.1]

/-- C1: the claim states that `resolveDependantChunks` terminates (with a
result of bounded size) even on a cyclic `imports` graph, the visited set
guaranteeing that a chunk is never re-walked.  The code adds a chunk to the
visited set only *after* recursively walking its imports, so on the cycle
`A → B → A` the membership test never fires and the recursion never
completes: for every recursion-depth budget `fuel`, the walk exhausts it.
This contradicts the stated purpose of the visited set (the spec is the
clear intent; deduplication-before-recursion is the standard fix). -/
theorem c1_cycle_walk_never_completes (fuel : Nat) :
    resolveDependantChunks cyclicManifest [("A", chunkA)] fuel =
      .error .outOfFuel := by
  simp [resolveDependantChunks, List.foldlM, (cyclic_walk_out_of_fuel fuel).1]

/-! ### C10: dedupe and the deduplication of asset URL lists -/

theorem strAppend_cancel_left {p a b : String} (h : p ++ a = p ++ b) : a = b := by
  apply String.ext
  have hd := congrArg String.data h
  rw [strData_append, strData_append] at hd
  exact List.append_cancel_left hd

theorem manifestLookup_mem {m : ViteManifest} {k : String} {c : ManifestChunk}
    (h : manifestLookup m k = some c) : (k, c) ∈ m := by
  rw [manifestLookup] at h
  cases hf : m.find? (fun e => e.1 == k) with
  | none => rw [hf] at h; cases h
  | some e =>
    rw [hf] at h
    have hm := List.mem_of_find?_eq_some hf
    have h1 : e.1 = k := by simpa using List.find?_some hf
    have h2 : e.2 = c := by simpa using h
    obtain ⟨e1, e2⟩ := e
    simp only at h1 h2
    rw [h1, h2] at hm
    exact hm

theorem filesNodup_lookup_inj {m : ViteManifest}
    (hfiles : (m.map (fun e => e.2.file)).Nodup)
    {k₁ k₂ : String} {c₁ c₂ : ManifestChunk}
    (h₁ : manifestLookup m k₁ = some c₁) (h₂ : manifestLookup m k₂ = some c₂)
    (hf : c₁.file = c₂.file) : k₁ = k₂ := by
  have m₁ := manifestLookup_mem h₁
  have m₂ := manifestLookup_mem h₂
  have heq := List.inj_on_of_nodup_map hfiles m₁ m₂ (by exact hf)
  exact congrArg Prod.fst heq

theorem importUrl_mapM_mem (publicPath : String) (m : ViteManifest) :
    ∀ (keys urls : List String),
      keys.mapM (importUrl publicPath m) = .ok urls →
      ∀ u ∈ urls, ∃ k c, k ∈ keys ∧ manifestLookup m k = some c ∧
        u = publicPath ++ c.file := by
  intro keys
  induction keys with
  | nil =>
    intro urls h u hu
    rw [List.mapM_nil] at h
    have : ([] : List String) = urls := by simpa [pure, Except.pure] using h
    rw [← this] at hu
    cases hu
  | cons k ks ih =>
    intro urls h u hu
    rw [List.mapM_cons] at h
    cases hk : importUrl publicPath m k with
    | error e => rw [hk] at h; exact absurd h (by simp [Bind.bind, Except.bind])
    | ok u0 =>
      rw [hk] at h
      cases hks : ks.mapM (importUrl publicPath m) with
      | error e => rw [hks] at h; exact absurd h (by simp [Bind.bind, Except.bind])
      | ok us =>
        rw [hks] at h
        have hurls : u0 :: us = urls := by
          simpa [Bind.bind, Except.bind, pure, Except.pure] using h
        rw [← hurls] at hu
        rcases List.mem_cons.mp hu with rfl | hmem
        · rw [importUrl] at hk
          cases hl : manifestLookup m k with
          | none => rw [hl] at hk; cases hk
          | some c =>
            rw [hl] at hk
            have : publicPath ++ c.file = u := by simpa using hk
            exact ⟨k, c, List.mem_cons_self k ks, hl, this.symm⟩
        · obtain ⟨k', c', hk'mem, hl', he'⟩ := ih us hks u hmem
          exact ⟨k', c', List.mem_cons_of_mem k hk'mem, hl', he'⟩

theorem importUrl_mapM_nodup (publicPath : String) (m : ViteManifest)
    (hfiles : (m.map (fun e => e.2.file)).Nodup) :
    ∀ (keys urls : List String), keys.Nodup →
      keys.mapM (importUrl publicPath m) = .ok urls → urls.Nodup := by
  intro keys
  induction keys with
  | nil =>
    intro urls _ h
    rw [List.mapM_nil] at h
    have : ([] : List String) = urls := by simpa [pure, Except.pure] using h
    rw [← this]
    exact List.nodup_nil
  | cons k ks ih =>
    intro urls hnd h
    rw [List.mapM_cons] at h
    cases hk : importUrl publicPath m k with
    | error e => rw [hk] at h; exact absurd h (by simp [Bind.bind, Except.bind])
    | ok u0 =>
      rw [hk] at h
      cases hks : ks.mapM (importUrl publicPath m) with
      | error e => rw [hks] at h; exact absurd h (by simp [Bind.bind, Except.bind])
      | ok us =>
        rw [hks] at h
        have hurls : u0 :: us = urls := by
          simpa [Bind.bind, Except.bind, pure, Except.pure] using h
        rw [← hurls]
        refine List.nodup_cons.mpr ⟨?_, ih us (List.nodup_cons.mp hnd).2 hks⟩
        intro hu0mem
        obtain ⟨k', c', hk'mem, hl', he'⟩ :=
          importUrl_mapM_mem publicPath m ks us hks u0 hu0mem
        rw [importUrl] at hk
        cases hl : manifestLookup m k with
        | none => rw [hl] at hk; cases hk
        | some c =>
          rw [hl] at hk
          have hu0 : publicPath ++ c.file = u0 := by simpa using hk
          have hcf : c.file = c'.file :=
            strAppend_cancel_left (p := publicPath) (by rw [hu0, he'])
          have : k = k' := filesNodup_lookup_inj hfiles hl hl' hcf
          rw [this] at hnd
          exact (List.nodup_cons.mp hnd).1 hk'mem

theorem resolveBuildAssetPaths_ok_parts (relativize : String → String)
    (publicPath : String) (m : ViteManifest) (entryFilePath : String)
    (prepended : List String) (fuel : Nat) (a : AssetPaths)
    (h : resolveBuildAssetPaths relativize publicPath m entryFilePath prepended fuel = .ok a) :
    ∃ chunks : List (String × ManifestChunk),
      (dedupe (chunks.flatMap (fun c => c.2.imports.getD []))).mapM (importUrl publicPath m) =
        .ok a.imports ∧
      a.css = (dedupe (chunks.flatMap (fun c => c.2.css.getD []))).map
        (fun href => publicPath ++ href) := by
  rw [resolveBuildAssetPaths] at h
  cases h1 : liftChunkErr (resolveChunkEntry relativize m entryFilePath) with
  | error e => rw [h1] at h; exact absurd h (by simp)
  | ok entryChunk =>
  rw [h1] at h; dsimp only at h
  cases h2 : prepended.mapM (fun filePath => liftChunkErr (resolveChunkEntry relativize m filePath)) with
  | error e => rw [h2] at h; exact absurd h (by simp)
  | ok prependedChunks =>
  rw [h2] at h; dsimp only at h
  cases h3 : resolveDependantChunks m (prependedChunks ++ [entryChunk]) fuel with
  | error e => rw [h3] at h; exact absurd h (by simp)
  | ok chunks =>
  rw [h3] at h; dsimp only at h
  cases h4 : (dedupe (chunks.flatMap (fun c => c.2.imports.getD []))).mapM (importUrl publicPath m) with
  | error e => rw [h4] at h; exact absurd h (by simp)
  | ok importFiles =>
  rw [h4] at h
  dsimp only at h
  have ha := (Except.ok.inj h).symm
  refine ⟨chunks, ?_, ?_⟩
  · rw [h4, ha]
  · rw [ha]

/-- C10: `dedupe` returns the distinct elements of its input in
first-occurrence order (characterised here as: no duplicates, exactly the
input's elements, a sublist of the input — hence order-preserving — and
idempotent).  The claim's consequence about `resolveBuildAssetPaths` holds
for `css` unconditionally, but for `imports` only under the extra hypothesis
that distinct manifest chunks have distinct output files: the source dedupes
the import *keys* and only then maps them to output files, so two keys
sharing one file yield a duplicate URL (see the counterexample). -/
theorem c10_dedupe_and_asset_lists {α : Type} [DecidableEq α] (l : List α)
    (relativize : String → String) (publicPath : String) (m : ViteManifest)
    (entryFilePath : String) (prepended : List String) (fuel : Nat)
    (a : AssetPaths)
    (hok : resolveBuildAssetPaths relativize publicPath m entryFilePath prepended fuel = .ok a)
    (hfiles : (m.map (fun e => e.2.file)).Nodup) :
    ((dedupe l).Nodup ∧ (∀ x, x ∈ dedupe l ↔ x ∈ l) ∧
      List.Sublist (dedupe l) l ∧ dedupe (dedupe l) = dedupe l) ∧
    a.imports.Nodup ∧ a.css.Nodup := by
  refine ⟨⟨dedupe_nodup l, fun x => mem_dedupe l x, dedupe_sublist l,
    dedupe_idempotent l⟩, ?_, ?_⟩
  · obtain ⟨chunks, himp, -⟩ :=
      resolveBuildAssetPaths_ok_parts relativize publicPath m entryFilePath
        prepended fuel a hok
    exact importUrl_mapM_nodup publicPath m hfiles _ _ (dedupe_nodup _) himp
  · obtain ⟨chunks, -, hcss⟩ :=
      resolveBuildAssetPaths_ok_parts relativize publicPath m entryFilePath
        prepended fuel a hok
    rw [hcss]
    exact List.Nodup.map (fun x y hxy => strAppend_cancel_left hxy)
      (dedupe_nodup _)

/-- C10 counterexample: in `dupFileManifest` the distinct chunk keys `"a"`
and `"b"` map to the same output file, so the `imports` URL list of
`resolveBuildAssetPaths` contains a duplicate entry, contrary to the claim. -/
theorem c10_counterexample :
    resolveBuildAssetPaths (fun s => s) "/" dupFileManifest "e" [] 10 =
      .ok { module := "/e.js?client-route",
            imports := ["/shared.js", "/shared.js"], css := [] } ∧
    ¬ (["/shared.js", "/shared.js"] : List String).Nodup :=
  ⟨rfl, by decide⟩

/-- Witness for C10's amended theorem at concrete inputs. -/
theorem c10_witness :
    ((dedupe ([1, 2, 1] : List Nat)).Nodup ∧
      (∀ x, x ∈ dedupe ([1, 2, 1] : List Nat) ↔ x ∈ ([1, 2, 1] : List Nat)) ∧
      List.Sublist (dedupe ([1, 2, 1] : List Nat)) [1, 2, 1] ∧
      dedupe (dedupe ([1, 2, 1] : List Nat)) = dedupe [1, 2, 1]) ∧
    (AssetPaths.mk "/e.js?client-route" ["/a.js"] ["/a.css"]).imports.Nodup ∧
    (AssetPaths.mk "/e.js?client-route" ["/a.js"] ["/a.css"]).css.Nodup :=
  c10_dedupe_and_asset_lists ([1, 2, 1] : List Nat) (fun s => s) "/"
    plainManifest "e" [] 10
    (AssetPaths.mk "/e.js?client-route" ["/a.js"] ["/a.css"]) rfl (by decide)

/-! ### C8: `resolveChunk` lookup preference and error enumeration -/

/-- C8: `resolveChunk` looks a file up by its project-root-relative path,
preferring the key qualified with the client-route query string over the bare
key; when neither key is present it throws, and the error text names the
requested path and every known manifest key. -/
theorem c8_resolveChunk_lookup (relativize : String → String) (m : ViteManifest)
    (absoluteFilePath : String) :
    (∀ c, manifestLookup m (relativize absoluteFilePath ++ CLIENT_ROUTE_QUERY_STRING) = some c →
      resolveChunk relativize m absoluteFilePath = .ok c) ∧
    (manifestLookup m (relativize absoluteFilePath ++ CLIENT_ROUTE_QUERY_STRING) = none →
      ∀ c, manifestLookup m (relativize absoluteFilePath) = some c →
        resolveChunk relativize m absoluteFilePath = .ok c) ∧
    (manifestLookup m (relativize absoluteFilePath ++ CLIENT_ROUTE_QUERY_STRING) = none →
      manifestLookup m (relativize absoluteFilePath) = none →
      resolveChunk relativize m absoluteFilePath =
        .error (manifestEntryNotFoundMessage (relativize absoluteFilePath) m) ∧
      Substr (relativize absoluteFilePath)
        (manifestEntryNotFoundMessage (relativize absoluteFilePath) m) ∧
      ∀ k ∈ manifestKeys m,
        Substr ("\"" ++ k ++ "\"")
          (manifestEntryNotFoundMessage (relativize absoluteFilePath) m)) := by
  refine ⟨?_, ?_, ?_⟩
  · intro c h
    simp [resolveChunk, resolveChunkEntry, h, Except.map]
  · intro hq c h
    simp [resolveChunk, resolveChunkEntry, hq, h, Except.map]
  · intro hq hb
    refine ⟨by simp [resolveChunk, resolveChunkEntry, hq, hb, Except.map], ?_, ?_⟩
    · simp only [manifestEntryNotFoundMessage]
      exact substr_append_left _ (substr_append_left _
        (substr_append_right _ (substr_refl _)))
    · intro k hk
      simp only [manifestEntryNotFoundMessage]
      refine substr_append_right _ (substr_joinSep _ _ _ ?_)
      exact List.mem_map.mpr ⟨k, hk, rfl⟩

/-- Witness for C8 at a concrete manifest with a missing key. -/
theorem c8_witness :
    resolveChunk (fun s => s) plainManifest "missing.tsx" =
      .error (manifestEntryNotFoundMessage "missing.tsx" plainManifest) ∧
    Substr "missing.tsx" (manifestEntryNotFoundMessage "missing.tsx" plainManifest) ∧
    ∀ k ∈ manifestKeys plainManifest,
      Substr ("\"" ++ k ++ "\"") (manifestEntryNotFoundMessage "missing.tsx" plainManifest) :=
  (c8_resolveChunk_lookup (fun s => s) plainManifest "missing.tsx").2.2 rfl rfl

/-! ### C4: SPA-mode server-only exports are a fatal transform error -/

/-- C4: with SSR disabled (`unstable_ssr = false`), the client-side
(`options.ssr = false`) transform of a route module whose code contains a
server-only export (`loader`, `action`, `headers`) throws, rather than
stripping the exports: the transform returns an error whose text names each
offending export and the route file. -/
theorem c4_spa_mode_server_only_export_error
    (lex : String → List String) (removeExportsImpl : String → List String → String)
    (appDirectory : String) (routes : List (String × ConfigRoute))
    (code fileId : String) (route : ConfigRoute)
    (hroute : getRoute appDirectory routes fileId = some route)
    (hoffenders : (lex code).filter (fun exp => SERVER_ONLY_ROUTE_EXPORTS.contains exp) ≠ []) :
    routeExportsTransform lex removeExportsImpl appDirectory routes false false code fileId =
      .error (spaModeInvalidExportsMessage
        ((lex code).filter (fun exp => SERVER_ONLY_ROUTE_EXPORTS.contains exp)) route.file) ∧
    (∀ exp ∈ (lex code).filter (fun exp => SERVER_ONLY_ROUTE_EXPORTS.contains exp),
      Substr ("`" ++ exp ++ "`")
        (spaModeInvalidExportsMessage
          ((lex code).filter (fun exp => SERVER_ONLY_ROUTE_EXPORTS.contains exp)) route.file)) ∧
    Substr route.file
      (spaModeInvalidExportsMessage
        ((lex code).filter (fun exp => SERVER_ONLY_ROUTE_EXPORTS.contains exp)) route.file) := by
  have hlen : ((lex code).filter (fun exp => SERVER_ONLY_ROUTE_EXPORTS.contains exp)).length > 0 :=
    List.length_pos.mpr hoffenders
  refine ⟨?_, ?_, ?_⟩
  · simp [routeExportsTransform, hroute, hlen]
    intro hall
    have hnil : (lex code).filter (fun exp => SERVER_ONLY_ROUTE_EXPORTS.contains exp) = [] :=
      List.filter_eq_nil_iff.mpr (fun a ha => by simpa using hall a ha)
    exact absurd hnil hoffenders
  · intro exp hexp
    simp only [spaModeInvalidExportsMessage]
    refine substr_append_left _ (substr_append_right _ (substr_joinSep _ _ _ ?_))
    exact List.mem_map.mpr ⟨exp, hexp, rfl⟩
  · simp only [spaModeInvalidExportsMessage]
    exact substr_append_left _ (substr_append_left _ (substr_append_left _
      (substr_append_right _ (substr_refl _))))

/-- Witness for C4: a non-root route exporting `loader` under SPA mode. -/
theorem c4_witness :
    routeExportsTransform (fun _ => ["loader", "default"]) (fun c _ => c)
        "/proj/app" fixtureRoutes false false "code" "/proj/app/routes/about.tsx" =
      .error (spaModeInvalidExportsMessage ["loader"] "routes/about.tsx") ∧
    (∀ exp ∈ (["loader"] : List String),
      Substr ("`" ++ exp ++ "`") (spaModeInvalidExportsMessage ["loader"] "routes/about.tsx")) ∧
    Substr "routes/about.tsx" (spaModeInvalidExportsMessage ["loader"] "routes/about.tsx") :=
  c4_spa_mode_server_only_export_error (fun _ => ["loader", "default"]) (fun c _ => c)
    "/proj/app" fixtureRoutes "code" "/proj/app/routes/about.tsx" aboutRoute rfl
    (by decide)

/-! ### C5: the `HydrateFallback` root-only check -/

/-- C5 counterexample: the `HydrateFallback` root-only check runs only when
SSR is disabled.  With SSR enabled (`unstable_ssr = true`, the default), the
client transform of a non-root route whose code exports `HydrateFallback`
succeeds instead of failing, so the claim as stated (with no SPA-mode
condition) is false. -/
theorem c5_counterexample :
    aboutRoute.id ≠ "root" ∧
    "HydrateFallback" ∈ ((fun (_ : String) => ["HydrateFallback", "default"]) "code") ∧
    routeExportsTransform (fun _ => ["HydrateFallback", "default"]) (fun c _ => c)
        "/proj/app" fixtureRoutes true false "code" "/proj/app/routes/about.tsx" =
      .ok (some "code") :=
  ⟨by decide, by decide, rfl⟩

/-- C5 (amended): in SPA mode (`unstable_ssr = false`), for a route module
with no server-only exports in its transformed code: a non-root route
exporting `HydrateFallback` fails with an error naming `HydrateFallback` and
the route file, while the root route with the same export transforms without
error. -/
theorem c5_hydrate_fallback_root_only
    (lex : String → List String) (removeExportsImpl : String → List String → String)
    (appDirectory : String) (routes : List (String × ConfigRoute))
    (code fileId : String) (route : ConfigRoute)
    (hroute : getRoute appDirectory routes fileId = some route)
    (hnoserver : (lex code).filter (fun exp => SERVER_ONLY_ROUTE_EXPORTS.contains exp) = []) :
    (route.id ≠ "root" → "HydrateFallback" ∈ lex code →
      routeExportsTransform lex removeExportsImpl appDirectory routes false false code fileId =
        .error (spaModeHydrateFallbackMessage route.file) ∧
      Substr "HydrateFallback" (spaModeHydrateFallbackMessage route.file) ∧
      Substr route.file (spaModeHydrateFallbackMessage route.file)) ∧
    (route.id = "root" →
      routeExportsTransform lex removeExportsImpl appDirectory routes false false code fileId =
        .ok (some (removeExportsImpl code SERVER_ONLY_ROUTE_EXPORTS))) := by
  have hnoserver' : (lex code).filter (fun exp => decide (exp ∈ SERVER_ONLY_ROUTE_EXPORTS)) = [] := by
    simpa using hnoserver
  constructor
  · intro hnonroot hmem
    refine ⟨?_, ?_, ?_⟩
    · simp [routeExportsTransform, hroute, hnoserver', hnonroot, hmem]
    · have h0 : Substr "HydrateFallback"
          "SPA Mode: Invalid `HydrateFallback` export found in `" := by decide
      simp only [spaModeHydrateFallbackMessage]
      exact substr_append_left _ (substr_append_left _ (substr_append_left _ h0))
    · simp only [spaModeHydrateFallbackMessage]
      exact substr_append_left _ (substr_append_left _
        (substr_append_right _ (substr_refl _)))
  · intro hroot
    simp [routeExportsTransform, hroute, hnoserver', hroot]

/-- Witness for C5's amended theorem: both the non-root failure and the root
success at concrete routes. -/
theorem c5_witness :
    (aboutRoute.id ≠ "root" → "HydrateFallback" ∈ ["HydrateFallback", "default"] →
      routeExportsTransform (fun _ => ["HydrateFallback", "default"]) (fun c _ => c)
          "/proj/app" fixtureRoutes false false "code" "/proj/app/routes/about.tsx" =
        .error (spaModeHydrateFallbackMessage "routes/about.tsx") ∧
      Substr "HydrateFallback" (spaModeHydrateFallbackMessage "routes/about.tsx") ∧
      Substr "routes/about.tsx" (spaModeHydrateFallbackMessage "routes/about.tsx")) ∧
    (aboutRoute.id = "root" →
      routeExportsTransform (fun _ => ["HydrateFallback", "default"]) (fun c _ => c)
          "/proj/app" fixtureRoutes false false "code" "/proj/app/routes/about.tsx" =
        .ok (some "code")) :=
  c5_hydrate_fallback_root_only (fun _ => ["HydrateFallback", "default"]) (fun c _ => c)
    "/proj/app" fixtureRoutes "code" "/proj/app/routes/about.tsx" aboutRoute rfl
    (by decide)

/-! ### C6: the `?client-route` re-export transform -/

/-- C6: for a module requested via the client-route query variant, the
transform emits a re-export of exactly the classified export names that
appear in the fixed client allowlist — a name is re-exported iff it is both a
classified export of the underlying route module and a member of
`CLIENT_ROUTE_EXPORTS`. -/
theorem c6_client_route_reexports (classify : String → List String)
    (fileId : String) (h : strEndsWith fileId CLIENT_ROUTE_QUERY_STRING = true) :
    clientRouteTransform classify fileId =
      some ("export \x7b " ++
        joinSep ", " (clientRouteExportNames
          (classify (replaceFirst fileId CLIENT_ROUTE_QUERY_STRING ""))) ++
        " \x7d from \"./" ++
        pathBasename (replaceFirst fileId CLIENT_ROUTE_QUERY_STRING "") ++ "\";") ∧
    ∀ n, (n ∈ clientRouteExportNames (classify (replaceFirst fileId CLIENT_ROUTE_QUERY_STRING "")) ↔
      n ∈ classify (replaceFirst fileId CLIENT_ROUTE_QUERY_STRING "") ∧
        n ∈ CLIENT_ROUTE_EXPORTS) := by
  constructor
  · simp [clientRouteTransform, h]
  · intro n
    simp [clientRouteExportNames, List.mem_filter]

/-- Witness for C6 at a concrete classified route. -/
theorem c6_witness :
    clientRouteTransform (fun _ => ["loader", "default", "meta"])
        "/proj/app/routes/about.tsx?client-route" =
      some "export \x7b default, meta \x7d from \"./about.tsx\";" ∧
    ∀ n, (n ∈ clientRouteExportNames
        ((fun (_ : String) => ["loader", "default", "meta"])
          (replaceFirst "/proj/app/routes/about.tsx?client-route" CLIENT_ROUTE_QUERY_STRING "")) ↔
      n ∈ (["loader", "default", "meta"] : List String) ∧ n ∈ CLIENT_ROUTE_EXPORTS) :=
  c6_client_route_reexports (fun _ => ["loader", "default", "meta"])
    "/proj/app/routes/about.tsx?client-route" (by decide)

/-! ### C7: the `.server` client-import guard -/

/-- C7: when the resolved id of an import matches the `.server` naming
convention (file suffix or directory segment), the import is being resolved
for the client graph (`options.ssr` false), the hook is not re-entering, the
importer is known, and the dev `.html` importer special case does not apply,
resolution throws: the error names both the offending id and the
(root-relative) importer, with the route-specific message exactly when the
importer is a route file. -/
theorem c7_dot_server_import_error (resolveUpstream : String → Option String)
    (viteCommand : String) (rootDirectory appDirectory : String)
    (routes : List (String × ConfigRoute)) (moduleId imp resolvedId : String)
    (hres : resolveUpstream moduleId = some resolvedId)
    (hdot : isDotServerPath resolvedId = true)
    (hhtml : (viteCommand != "build" && strEndsWith imp ".html") = false) :
    dotServerResolveId resolveUpstream viteCommand rootDirectory appDirectory routes
        false false moduleId (some imp) =
      .error (if (getRoute appDirectory routes imp).isSome then
          dotServerRouteErrorMessage moduleId (relativeTo rootDirectory imp)
        else dotServerGenericErrorMessage moduleId (relativeTo rootDirectory imp)) ∧
    Substr moduleId (dotServerRouteErrorMessage moduleId (relativeTo rootDirectory imp)) ∧
    Substr (relativeTo rootDirectory imp)
      (dotServerRouteErrorMessage moduleId (relativeTo rootDirectory imp)) ∧
    Substr moduleId (dotServerGenericErrorMessage moduleId (relativeTo rootDirectory imp)) ∧
    Substr (relativeTo rootDirectory imp)
      (dotServerGenericErrorMessage moduleId (relativeTo rootDirectory imp)) := by
  refine ⟨?_, ?_, ?_, ?_, ?_⟩
  · cases hg : getRoute appDirectory routes imp with
    | none => simp [dotServerResolveId, hres, hdot, hhtml, hg]
    | some r => simp [dotServerResolveId, hres, hdot, hhtml, hg]
  · simp only [dotServerRouteErrorMessage]
    refine substr_trans ?_ (substr_joinSep "\n" _
      ("    \x27" ++ moduleId ++ "\x27 imported by route \x27" ++
        relativeTo rootDirectory imp ++ "\x27") (by simp))
    exact substr_append_left _ (substr_append_left _ (substr_append_left _
      (substr_append_right "    \x27" (substr_refl moduleId))))
  · simp only [dotServerRouteErrorMessage]
    refine substr_trans ?_ (substr_joinSep "\n" _
      ("    \x27" ++ moduleId ++ "\x27 imported by route \x27" ++
        relativeTo rootDirectory imp ++ "\x27") (by simp))
    exact substr_append_left "\x27"
      (substr_append_right _ (substr_refl (relativeTo rootDirectory imp)))
  · simp only [dotServerGenericErrorMessage]
    refine substr_trans ?_ (substr_joinSep "\n" _
      ("    \x27" ++ moduleId ++ "\x27 imported by \x27" ++
        relativeTo rootDirectory imp ++ "\x27") (by simp))
    exact substr_append_left _ (substr_append_left _ (substr_append_left _
      (substr_append_right "    \x27" (substr_refl moduleId))))
  · simp only [dotServerGenericErrorMessage]
    refine substr_trans ?_ (substr_joinSep "\n" _
      ("    \x27" ++ moduleId ++ "\x27 imported by \x27" ++
        relativeTo rootDirectory imp ++ "\x27") (by simp))
    exact substr_append_left "\x27"
      (substr_append_right _ (substr_refl (relativeTo rootDirectory imp)))

/-- Witness for C7: a `.server` file imported from a route file of the client
graph during dev. -/
theorem c7_witness :
    dotServerResolveId (fun _ => some "/proj/app/utils.server.ts") "serve"
        "/proj" "/proj/app" fixtureRoutes false false "./utils.server"
        (some "/proj/app/routes/about.tsx") =
      .error (if (getRoute "/proj/app" fixtureRoutes "/proj/app/routes/about.tsx").isSome then
          dotServerRouteErrorMessage "./utils.server" "app/routes/about.tsx"
        else dotServerGenericErrorMessage "./utils.server" "app/routes/about.tsx") ∧
    Substr "./utils.server" (dotServerRouteErrorMessage "./utils.server" "app/routes/about.tsx") ∧
    Substr "app/routes/about.tsx"
      (dotServerRouteErrorMessage "./utils.server" "app/routes/about.tsx") ∧
    Substr "./utils.server" (dotServerGenericErrorMessage "./utils.server" "app/routes/about.tsx") ∧
    Substr "app/routes/about.tsx"
      (dotServerGenericErrorMessage "./utils.server" "app/routes/about.tsx") :=
  c7_dot_server_import_error (fun _ => some "/proj/app/utils.server.ts") "serve"
    "/proj" "/proj/app" fixtureRoutes "./utils.server" "/proj/app/routes/about.tsx"
    "/proj/app/utils.server.ts" rfl (by decide) (by decide)

/-! ### C2: invalidation iff the resolved config changed under JSON equality -/

/-- C2: after a watcher-triggered context recomputation, the declared virtual
modules are invalidated iff the newly resolved config differs from the
previous one under the plugin's structural JSON equality (`isEqualJson`,
which cannot see function-valued fields); and `handleHotUpdate` emits exactly
one `remix:hmr` event whose payload carries the recomputed per-route metadata
(or `null` when the file maps to no route), regardless of whether any
invalidation occurred. -/
theorem c2_invalidation_iff_json_change (recompute : Unit → ResolvedConfig)
    (configFile : String) (st : WatcherState) (eventName filepath : String)
    (htrig : watcherTriggered st.remixConfig.appDirectory configFile eventName filepath = true)
    (rootDirectory appDirectory : String) (routes : List (String × ConfigRoute))
    (resolveFileUrl : String → String) (exportsOf : String → List String)
    (manifestRoutes : String → Option DevRouteMetadata) (g : ModuleGraph)
    (file : String) :
    ((watcherHandler recompute configFile st eventName filepath).invalidated = true ↔
      configStringify st.remixConfig ≠ configStringify (recompute ())) ∧
    ((watcherHandler recompute configFile st eventName filepath).graph =
      if configStringify st.remixConfig != configStringify (recompute ()) then
        invalidateVirtualModules st.graph
      else st.graph) ∧
    (handleHotUpdate rootDirectory appDirectory routes resolveFileUrl exportsOf
        manifestRoutes g file).sentEvents =
      [{ event := "remix:hmr",
         route := (getRoute appDirectory routes file).map
           (getRouteMetadata rootDirectory appDirectory resolveFileUrl exportsOf) }] := by
  refine ⟨?_, ?_, ?_⟩
  · rw [watcherHandler, if_pos htrig]
    cases hj : isEqualJson st.remixConfig (recompute ()) with
    | false =>
      simp only [hj, Bool.not_false, if_true]
      rw [isEqualJson] at hj
      simpa using beq_eq_false_iff_ne.mp hj
    | true =>
      simp only [hj, Bool.not_true, if_false]
      rw [isEqualJson] at hj
      simpa using eq_of_beq hj
  · rw [watcherHandler, if_pos htrig]
    cases hj : isEqualJson st.remixConfig (recompute ()) with
    | false =>
      have hj' : (configStringify st.remixConfig != configStringify (recompute ())) = true := by
        rw [isEqualJson] at hj
        simp [bne, hj]
      simp [hj, hj']
    | true =>
      have hj' : (configStringify st.remixConfig != configStringify (recompute ())) = false := by
        rw [isEqualJson] at hj
        simp [bne, hj]
      simp [hj, hj']
  · cases hg : getRoute appDirectory routes file with
    | none => simp [handleHotUpdate, hg]
    | some r => simp [handleHotUpdate, hg]

/-- Witness for C2: a config-file change event with a genuinely different
recomputed config. -/
theorem c2_witness :
    ((watcherHandler (fun _ => cfgB) "/proj/vite.config.ts" ⟨cfgA, fixtureGraph⟩
        "change" "/proj/vite.config.ts").invalidated = true ↔
      configStringify cfgA ≠ configStringify cfgB) ∧
    ((watcherHandler (fun _ => cfgB) "/proj/vite.config.ts" ⟨cfgA, fixtureGraph⟩
        "change" "/proj/vite.config.ts").graph =
      if configStringify cfgA != configStringify cfgB then
        invalidateVirtualModules fixtureGraph
      else fixtureGraph) ∧
    (handleHotUpdate "/proj" "/proj/app" fixtureRoutes (fun s => s) (fun _ => ["default"])
        (fun _ => none) fixtureGraph "/proj/app/routes/about.tsx").sentEvents =
      [{ event := "remix:hmr",
         route := (getRoute "/proj/app" fixtureRoutes "/proj/app/routes/about.tsx").map
           (getRouteMetadata "/proj" "/proj/app" (fun s => s) (fun _ => ["default"])) }] :=
  c2_invalidation_iff_json_change (fun _ => cfgB) "/proj/vite.config.ts"
    ⟨cfgA, fixtureGraph⟩ "change" "/proj/vite.config.ts" (by decide)
    "/proj" "/proj/app" fixtureRoutes (fun s => s) (fun _ => ["default"])
    (fun _ => none) fixtureGraph "/proj/app/routes/about.tsx"

/-! ### C9: non-triggering filesystem events leave the context untouched -/

/-- C9: an add/unlink event for a path outside the app directory, or a change
event on any file other than the resolved Vite config file, does not trigger
the watcher: the plugin context is not recomputed, and no virtual module is
invalidated (`recompute` is only ever invoked in the triggered branch of
`watcherHandler`). -/
theorem c9_non_trigger_leaves_context_unchanged (recompute : Unit → ResolvedConfig)
    (configFile : String) (st : WatcherState) (eventName filepath : String)
    (h : ((eventName = "add" ∨ eventName = "unlink") ∧
        strStartsWith (normalizePath filepath) (normalizePath st.remixConfig.appDirectory) = false) ∨
      (eventName = "change" ∧
        (normalizePath filepath == normalizePath configFile) = false)) :
    watcherHandler recompute configFile st eventName filepath =
      { remixConfig := st.remixConfig, graph := st.graph, invalidated := false } := by
  have htrig : watcherTriggered st.remixConfig.appDirectory configFile eventName filepath = false := by
    rcases h with ⟨hev, hout⟩ | ⟨hev, hne⟩
    · have h1 : (("add" : String) == "change") = false := by decide
      have h2 : (("unlink" : String) == "change") = false := by decide
      rcases hev with rfl | rfl <;> simp [watcherTriggered, hout, h1, h2]
    · subst hev
      have h1 : (("change" : String) == "add") = false := by decide
      have h2 : (("change" : String) == "unlink") = false := by decide
      simp [watcherTriggered, hne, h1, h2]
  rw [watcherHandler, if_neg (by simp [htrig])]

/-- Witness for C9: a file added outside the app directory. -/
theorem c9_witness :
    watcherHandler (fun _ => cfgB) "/proj/vite.config.ts" ⟨cfgA, fixtureGraph⟩
        "add" "/elsewhere/new-file.tsx" =
      { remixConfig := cfgA, graph := fixtureGraph, invalidated := false } :=
  c9_non_trigger_leaves_context_unchanged (fun _ => cfgB) "/proj/vite.config.ts"
    ⟨cfgA, fixtureGraph⟩ "add" "/elsewhere/new-file.tsx"
    (Or.inl ⟨Or.inl rfl, by decide⟩)

/-! ### C3: the production manifest version fingerprint -/

theorem strData_mk (l : List Char) : (String.mk l).data = l := rfl

theorem u32_lt (n : Nat) : u32 n < 4294967296 := by
  simp only [u32]
  omega

theorem sha256Block_bounded (st : Sha256State) (block : List Nat) :
    stateBounded (sha256Block st block) := by
  simp only [stateBounded, sha256Block]
  exact ⟨u32_lt _, u32_lt _, u32_lt _, u32_lt _, u32_lt _, u32_lt _, u32_lt _, u32_lt _⟩

theorem foldl_sha256Block_bounded (blocks : List (List Nat)) :
    ∀ st : Sha256State, stateBounded st → stateBounded (blocks.foldl sha256Block st) := by
  induction blocks with
  | nil => intro st h; exact h
  | cons b bs ih =>
    intro st _
    rw [List.foldl_cons]
    exact ih _ (sha256Block_bounded st b)

theorem sha256Digest_bounded (bytes : List Nat) : stateBounded (sha256Digest bytes) := by
  rw [sha256Digest]
  exact foldl_sha256Block_bounded _ sha256Init (by simp only [stateBounded]; decide)

theorem c3VersionWord_lt (n : Nat) : c3VersionWord n < 4294967296 :=
  (sha256Digest_bounded _).1

theorem hexPad_data_length (k n : Nat) : (hexPad k n).data.length = k := by
  simp [hexPad]

/-- Truncating the hex digest to 8 characters keeps exactly the leading
32-bit digest word. -/
theorem getHash_eight (s : String) :
    getHash s (some 8) = hexPad 8 (sha256Digest (utf8Bytes s)).a := by
  have hlen : (hexPad 8 (sha256Digest (utf8Bytes s)).a).data.length = 8 :=
    hexPad_data_length 8 _
  apply String.ext
  simp only [getHash, sha256Hex, strTake, strData_append, List.append_assoc, strData_mk]
  rw [List.take_append_of_le_length hlen.ge]
  exact List.take_of_length_le hlen.le

theorem createBrowserManifestForBuild_ok_version (ctx : BuildCtx)
    (m : ViteManifest) (exportsOf : String → List String) (fuel : Nat)
    (b : BrowserManifestForBuild)
    (h : createBrowserManifestForBuild ctx m exportsOf fuel = .ok b) :
    b.version = manifestVersion b.entry b.routes := by
  rw [createBrowserManifestForBuild] at h
  cases h1 : resolveBuildAssetPaths ctx.relativize ctx.publicPath m
      ctx.entryClientFilePath [] fuel with
  | error e => rw [h1] at h; exact absurd h (by simp)
  | ok entry =>
  rw [h1] at h; dsimp only at h
  cases h2 : buildRouteEntries ctx m exportsOf fuel with
  | error e => rw [h2] at h; exact absurd h (by simp)
  | ok routes =>
  rw [h2] at h; dsimp only at h
  have hb := (Except.ok.inj h).symm
  rw [hb]

/-- C3 (amended): the production manifest `version` is a pure function of the
fingerprinted `{entry, routes}` pair — two syntheses whose resolved entry and
route records coincide produce the identical version string (even from
different contexts, manifests, classifiers or fuel).  The claim's converse
direction — that changing a route's asset path always changes the version —
is false because the version is the digest truncated to 8 hex characters
(see the counterexample); changing the asset path always changes the hash
*preimage* but not necessarily the truncated digest. -/
theorem c3_version_pure_function_of_entry_routes
    (ctx₁ ctx₂ : BuildCtx) (m₁ m₂ : ViteManifest)
    (e₁ e₂ : String → List String) (f₁ f₂ : Nat)
    (hentry : (createBrowserManifestForBuild ctx₁ m₁ e₁ f₁).map BrowserManifestForBuild.entry =
      (createBrowserManifestForBuild ctx₂ m₂ e₂ f₂).map BrowserManifestForBuild.entry)
    (hroutes : (createBrowserManifestForBuild ctx₁ m₁ e₁ f₁).map BrowserManifestForBuild.routes =
      (createBrowserManifestForBuild ctx₂ m₂ e₂ f₂).map BrowserManifestForBuild.routes) :
    (createBrowserManifestForBuild ctx₁ m₁ e₁ f₁).map BrowserManifestForBuild.version =
      (createBrowserManifestForBuild ctx₂ m₂ e₂ f₂).map BrowserManifestForBuild.version := by
  cases hr₁ : createBrowserManifestForBuild ctx₁ m₁ e₁ f₁ with
  | error err₁ =>
    cases hr₂ : createBrowserManifestForBuild ctx₂ m₂ e₂ f₂ with
    | error err₂ =>
      rw [hr₁, hr₂] at hentry
      have : err₁ = err₂ := by simpa [Except.map] using hentry
      simp [Except.map, this]
    | ok b₂ =>
      rw [hr₁, hr₂] at hentry
      exact absurd hentry (by simp [Except.map])
  | ok b₁ =>
    cases hr₂ : createBrowserManifestForBuild ctx₂ m₂ e₂ f₂ with
    | error err₂ =>
      rw [hr₁, hr₂] at hentry
      exact absurd hentry (by simp [Except.map])
    | ok b₂ =>
      rw [hr₁, hr₂] at hentry hroutes
      have he : b₁.entry = b₂.entry := by simpa [Except.map] using hentry
      have hro : b₁.routes = b₂.routes := by simpa [Except.map] using hroutes
      have hv₁ := createBrowserManifestForBuild_ok_version ctx₁ m₁ e₁ f₁ b₁ hr₁
      have hv₂ := createBrowserManifestForBuild_ok_version ctx₂ m₂ e₂ f₂ b₂ hr₂
      simp [Except.map, hv₁, hv₂, he, hro]

/-- Witness for C3's amended theorem: applying it to one concrete synthesis
twice (hypotheses discharged by reflexivity). -/
theorem c3_witness :
    (createBrowserManifestForBuild witnessCtx [] (fun _ => []) 1).map BrowserManifestForBuild.version =
      (createBrowserManifestForBuild witnessCtx [] (fun _ => []) 1).map BrowserManifestForBuild.version :=
  c3_version_pure_function_of_entry_routes witnessCtx witnessCtx [] []
    (fun _ => []) (fun _ => []) 1 1 rfl rfl

theorem c3Routes_inj {x y : Nat} (h : c3Routes x = c3Routes y) : x = y := by
  have hm : ("/assets/" ++ String.mk (List.replicate x 'a') ++ ".js" : String) =
      "/assets/" ++ String.mk (List.replicate y 'a') ++ ".js" := by
    have h1 : c3Route x = c3Route y := by
      have := congrArg (fun l : List (String × RouteManifestEntry) => l.map (fun kv => kv.2)) h
      simpa [c3Routes] using this
    exact congrArg RouteManifestEntry.module h1
  have h2 := congrArg (fun s : String => s.data.length) hm
  simp [strData_append, strData_mk] at h2
  omega

/-- C3 counterexample: the version is the hex digest truncated to 8
characters, i.e. 32 bits, so by the pigeonhole principle there exist two
route records that differ only in the single route's resolved asset path yet
fingerprint to the identical version string.  This refutes the claim's
universal "changing any route's resolved asset path changes the version". -/
theorem c3_counterexample :
    ∃ n₁ n₂ : Nat, c3Routes n₁ ≠ c3Routes n₂ ∧
      manifestVersion c3Entry (c3Routes n₁) = manifestVersion c3Entry (c3Routes n₂) := by
  obtain ⟨x, y, hxy, hf⟩ := Finite.exists_ne_map_eq_of_infinite
    (fun n : Nat => (⟨c3VersionWord n, c3VersionWord_lt n⟩ : Fin 4294967296))
  refine ⟨x, y, fun hc => hxy (c3Routes_inj hc), ?_⟩
  have hw : c3VersionWord x = c3VersionWord y := congrArg Fin.val hf
  calc manifestVersion c3Entry (c3Routes x)
      = hexPad 8 (c3VersionWord x) := by rw [manifestVersion, getHash_eight]; rfl
    _ = hexPad 8 (c3VersionWord y) := by rw [hw]
    _ = manifestVersion c3Entry (c3Routes y) := by rw [manifestVersion, getHash_eight]; rfl
